import Mathlib

/-!
Verification of the tolerance/display configuration subsystem and the
numeric utilities of the `dummypypi2` package.

Numbers that the Python code stores as floats are modelled as exact
rationals (`ℚ`); the signed-angle utility, which is genuinely
real-valued, is modelled over `ℝ`.  Python exceptions are modelled by an
explicit error type, and fallible operations return `Except`.
Module-level mutable globals (the tolerance store `RTOL`/`ATOL` and the
module-level singleton context manager) are modelled by explicit state
passing.
-/

/-- Python exception values raised by the code under verification. -/
inductive PyError where
  /-- `ValueError(msg)` -/
  | valueError (msg : String)
  /-- `KeyError(key)` — raised by a failed dict lookup `d[key]`. -/
  | keyError (key : String)
  /-- `ImportWarning(msg)` — raised when matplotlib is missing. -/
  | importWarning (msg : String)
  /-- `AttributeError(msg)` -/
  | attributeError (msg : String)
  deriving DecidableEq, Repr

/-- The Tolerance Store: the module-level globals `RTOL, ATOL = 1E-5, 1E-8`
of `config.py`, the two tolerance scalars shared by the whole process. -/
structure ToleranceStore where
  RTOL : ℚ
  ATOL : ℚ
  deriving DecidableEq, Repr

/-- The initial value of the store: `RTOL, ATOL = 1E-5, 1E-8`. -/
def ToleranceStore.initial : ToleranceStore :=
  { RTOL := 1 / 100000, ATOL := 1 / 100000000 }

/-- `_NumericalToleranceBase._set_tolerance(*, rtol=None, atol=None)`:
assigns each global for which the corresponding keyword is not `None`,
leaving the other unchanged. -/
def set_tolerance (s : ToleranceStore) (rtol atol : Option ℚ) : ToleranceStore :=
  let s1 := match rtol with
    | some r => { s with RTOL := r }
    | none => s
  match atol with
  | some a => { s1 with ATOL := a }
  | none => s1

/-- `_NumericalToleranceBase._save_current_tolerance()`: returns the pair
`(RTOL, ATOL)` currently in the store. -/
def save_current_tolerance (s : ToleranceStore) : ℚ × ℚ :=
  (s.RTOL, s.ATOL)

/-- The positional argument passed to `NumericalToleranceSetter.__call__`:
absent (`None`), a Python `str`, or some value of any non-string type
(modelled abstractly by a tag, since only its non-stringness matters). -/
inductive PosArg where
  | none
  | str (s : String)
  | nonStr (tag : Nat)
  deriving DecidableEq, Repr

/-- The message of the `ValueError` raised by the permanent setter. -/
def setterErrMsg : String :=
  "'set_algo_options' takes either no positional arguments or a single string argument 'default'. To set custom tolerances, use keyword arguments 'rtol' and/or 'atol'."

/-- `NumericalToleranceSetter.__call__(shortcut=None, *_, rtol=None, atol=None)`:
`if shortcut is None: pass`, `elif not isinstance(shortcut, str): raise
ValueError(...)`, `elif shortcut == 'default': self._set_tolerance(rtol=1E-5,
atol=1E-8)`; then unconditionally `self._set_tolerance(rtol=rtol, atol=atol)`.
Note that a string different from `'default'` matches no branch of the
`if`/`elif` chain and falls through to the final `_set_tolerance` call. -/
def NumericalToleranceSetter.call (s : ToleranceStore) (shortcut : PosArg)
    (rtol atol : Option ℚ) : Except PyError ToleranceStore :=
  match shortcut with
  | PosArg.none => Except.ok (set_tolerance s rtol atol)
  | PosArg.nonStr _ => Except.error (PyError.valueError setterErrMsg)
  | PosArg.str t =>
      if t = "default" then
        Except.ok (set_tolerance
          (set_tolerance s (some (1 / 100000)) (some (1 / 100000000))) rtol atol)
      else
        Except.ok (set_tolerance s rtol atol)

/-- `set_algo_options(shortcut=None, /, *, rtol=None, atol=None)`: the
module-level wrapper delegating to the singleton `_algo_options_setter`. -/
def set_algo_options (s : ToleranceStore) (shortcut : PosArg)
    (rtol atol : Option ℚ) : Except PyError ToleranceStore :=
  NumericalToleranceSetter.call s shortcut rtol atol

/-- The state of a `NumericalToleranceContextManager` object: the override
attributes `_rtol`/`_atol` set by `__call__`, and the snapshot attributes
`_prev_rtol`/`_prev_atol` set by `__enter__` (absent until the first entry,
hence an `Option`). -/
structure NumericalToleranceContextManager where
  rtol : Option ℚ
  atol : Option ℚ
  prev : Option (ℚ × ℚ)
  deriving DecidableEq, Repr

/-- The module-level singleton `_tolerance_context_manager =
NumericalToleranceContextManager()`: a fresh object with no attributes set. -/
def NumericalToleranceContextManager.initial : NumericalToleranceContextManager :=
  { rtol := none, atol := none, prev := none }

/-- `NumericalToleranceContextManager.__call__(*, rtol=None, atol=None)`:
stores the overrides on the object (`self._rtol = rtol; self._atol = atol`)
and returns `self`. -/
def NumericalToleranceContextManager.call (m : NumericalToleranceContextManager)
    (rtol atol : Option ℚ) : NumericalToleranceContextManager :=
  { m with rtol := rtol, atol := atol }

/-- `NumericalToleranceContextManager.__enter__`: snapshots the store's
current values into `_prev_rtol`/`_prev_atol`, then applies the configured
overrides to the store. Returns the updated object and the updated store. -/
def NumericalToleranceContextManager.enter (m : NumericalToleranceContextManager)
    (s : ToleranceStore) : NumericalToleranceContextManager × ToleranceStore :=
  ({ m with prev := some (save_current_tolerance s) }, set_tolerance s m.rtol m.atol)

/-- `NumericalToleranceContextManager.__exit__(*_)`: writes the snapshot back
into the globals, ignoring its arguments (so it neither inspects nor
suppresses an exception). Reading `self._prev_rtol` on an object that was
never entered raises `AttributeError`. -/
def NumericalToleranceContextManager.exit (m : NumericalToleranceContextManager) :
    Except PyError ToleranceStore :=
  match m.prev with
  | some (r, a) => Except.ok { RTOL := r, ATOL := a }
  | none => Except.error (PyError.attributeError
      "'NumericalToleranceContextManager' object has no attribute '_prev_rtol'")

/-- One execution of a `with` statement over a prepared context manager `m`:
`__enter__` runs, then the body (which may mutate the store and may raise,
modelled by returning the mutated store together with an optional
exception), then `__exit__` runs on every path.  Returns the object after
entry, the final store, and the exception that propagates (the body's, since
`__exit__` returns `None` and so never suppresses it). -/
def runWith (m : NumericalToleranceContextManager) (s : ToleranceStore)
    (body : ToleranceStore → ToleranceStore × Option PyError) :
    NumericalToleranceContextManager × ToleranceStore × Option PyError :=
  let p := m.enter s
  let r := body p.2
  match p.1.exit with
  | Except.ok s3 => (p.1, s3, r.2)
  | Except.error e => (p.1, r.1, some e)

/-- The module state of `config.py` relevant to `algo_options`: the
Tolerance Store globals together with the module-level singleton
`_tolerance_context_manager`. -/
structure ModuleState where
  store : ToleranceStore
  ctxMgr : NumericalToleranceContextManager
  deriving DecidableEq, Repr

/-- `algo_options(*, rtol=None, atol=None)`: calls the module-level
singleton context manager, which reconfigures itself in place and returns
itself. The returned handle is the module's (now updated) singleton. -/
def algo_options (st : ModuleState) (rtol atol : Option ℚ) :
    ModuleState × NumericalToleranceContextManager :=
  let m := st.ctxMgr.call rtol atol
  ({ st with ctxMgr := m }, m)

/-- `dummypypi2._config.__getattr__(name)` (the Config Facade): resolves
`RTOL` and `ATOL` against the Tolerance Store at the moment of the access,
and raises `AttributeError` naming the facade module and the unknown
attribute for any other name. -/
def configGetattr (s : ToleranceStore) (name : String) : Except PyError ℚ :=
  if name = "RTOL" then Except.ok s.RTOL
  else if name = "ATOL" then Except.ok s.ATOL
  else Except.error (PyError.attributeError
    ("module 'dummypypi2._config' has no attribute '" ++ name ++ "'"))

/-- The `CLR_MATPLOTLIB` palette constant (10 colors). -/
def CLR_MATPLOTLIB : List String :=
  ["#1f77b4", "#ff7f0e", "#2ca02c", "#d62728", "#9467bd",
   "#8c564b", "#e377c2", "#7f7f7f", "#bcbd22", "#17becf"]

/-- The `CLR_MATPLOTLIB_LEGACY` palette constant (7 single-letter codes). -/
def CLR_MATPLOTLIB_LEGACY : List String :=
  ["b", "g", "r", "c", "m", "y", "k"]

/-- The `CLR_TABLEAU_10` palette constant (10 colors). -/
def CLR_TABLEAU_10 : List String :=
  ["#4E79A7", "#F28E2B", "#E15759", "#76B7B2", "#59A14F",
   "#EDC948", "#B07AA1", "#FF9DA7", "#9C755F", "#BAB0AC"]

/-- The lookup `color_dict[color_cycle]` inside
`DisplayOptionsSetter.__call__`: the dict maps the three palette names to
their constants; any other key raises `KeyError`. -/
def colorDictLookup (name : String) : Option (List String) :=
  if name = "matplotlib" then some CLR_MATPLOTLIB
  else if name = "matplotlib_legacy" then some CLR_MATPLOTLIB_LEGACY
  else if name = "tableau_10" then some CLR_TABLEAU_10
  else none

/-- The message of the `ImportWarning` raised when matplotlib is missing. -/
def displayImportMsg : String :=
  "Package 'matplotlib' is not installed. Please install it to use this color palette."

/-- `DisplayOptionsSetter.__call__(*, color_cycle=None)`, which
`set_display_options` delegates to.  `mplAvailable` models whether
`import matplotlib` succeeds in this environment.  With `color_cycle`
absent the body is skipped entirely.  Otherwise the code first attempts
`import matplotlib` inside a `try` whose `except ImportError` re-raises an
`ImportWarning`; only when the import succeeds is `color_dict[color_cycle]`
evaluated, so an unknown name raises `KeyError` (uncaught) only in an
environment where matplotlib is present.  The returned value is the palette
written to `mpl.rcParams` as the active color cycle, or `none` when the
color cycle is left unmodified. -/
def set_display_options (mplAvailable : Bool) (color_cycle : Option String) :
    Except PyError (Option (List String)) :=
  match color_cycle with
  | none => Except.ok none
  | some name =>
      if mplAvailable then
        match colorDictLookup name with
        | some palette => Except.ok (some palette)
        | none => Except.error (PyError.keyError name)
      else
        Except.error (PyError.importWarning displayImportMsg)

/-- Modelled from the spec: the approximate-equality predicate `is_close`
of the utility module (`dummypypi2/utils.py`, absent from the source tree;
only its tests are present).  Per the spec it "returns true when the two
values are within `absolute_tolerance + relative_tolerance × |second
value|` of each other", reading both tolerances from the Tolerance Store
at call time. -/
def is_close (s : ToleranceStore) (a b : ℚ) : Bool :=
  |a - b| ≤ s.ATOL + s.RTOL * |b|

/-- Modelled from the spec: the `divide` utility
(`dummypypi2/utils.py`, absent from the source tree; only its tests are
present).  Per the spec it "returns numerator divided by denominator as a
floating-point result" and "fails with a DivisionByZero-class error
(reported as an invalid-argument condition) when the denominator is zero";
the test suite expects a `ValueError`. -/
def divide (n d : ℚ) : Except PyError ℚ :=
  if d = 0 then Except.error (PyError.valueError "division by zero")
  else Except.ok (n / d)

/-- A 3-D real vector.  The signed-angle utility accepts 2-D or 3-D
vectors; a 2-D vector is embedded with a zero third component. -/
structure Vec3 where
  x : ℝ
  y : ℝ
  z : ℝ

/-- The cross product of two 3-D vectors. -/
def cross3 (u v : Vec3) : Vec3 :=
  { x := u.y * v.z - u.z * v.y
    y := u.z * v.x - u.x * v.z
    z := u.x * v.y - u.y * v.x }

/-- The dot product of two 3-D vectors. -/
def dot3 (u v : Vec3) : ℝ :=
  u.x * v.x + u.y * v.y + u.z * v.z

/-- The Euclidean norm of a 3-D vector. -/
noncomputable def norm3 (u : Vec3) : ℝ :=
  Real.sqrt (dot3 u u)

/-- The unsigned angle between two vectors,
`arccos(dot(a, b) / (|a| * |b|))`. -/
noncomputable def angleBetween (a b : Vec3) : ℝ :=
  Real.arccos (dot3 a b / (norm3 a * norm3 b))

/-- Modelled from the spec: the `get_signed_angle` utility
(`dummypypi2/utils.py`, absent from the source tree; only its tests are
present).  Per the spec its magnitude "equals the unsigned angle between
the two vectors" and its "sign flips depending on orientation relative to
the look vector", the orientation being decided "via a
cross-product-and-dot-product test analogous to the right-hand rule": the
result is negated exactly when `dot(cross(a, b), look)` is negative. -/
noncomputable def get_signed_angle (a b look : Vec3) : ℝ :=
  if dot3 (cross3 a b) look < 0 then -angleBetween a b else angleBetween a b

/-- C1: evaluation of the permanent setter at a text shortcut different
from "default".  The claim says every shortcut value other than the text
"default" fails with an InvalidArgument error; the code raises only for
non-text values, while a text value such as "custom" matches no branch of
the `if`/`elif` chain and is silently accepted (keyword overrides are
still applied), contradicting the contract stated in the code's own error
message.  A non-text value is rejected as claimed. -/
theorem C1_nondefault_string_accepted :
    set_algo_options ToleranceStore.initial (PosArg.str "custom") none none
        = Except.ok ToleranceStore.initial
    ∧ set_algo_options ToleranceStore.initial (PosArg.str "custom") none (some (1 / 1000))
        = Except.ok { RTOL := 1 / 100000, ATOL := 1 / 1000 }
    ∧ set_algo_options ToleranceStore.initial (PosArg.nonStr 0) none none
        = Except.error (PyError.valueError setterErrMsg) := by
  refine ⟨rfl, ?_, rfl⟩
  rfl

/-- C2 counterexample: two sequentially nested scopes entered via
`algo_options` (outer override `atol = 1E-3`, inner override
`rtol = 1E-4`), starting from the initial store.  Because both scopes
share the module-level singleton handle, the inner entry overwrites the
snapshot taken at the outer entry, so the outer scope's exit does not
restore the store to the values live before the outer entry: it restores
`ATOL = 1E-3`, not the original `1E-8`. -/
theorem C2_outer_exit_not_restoring :
    (let st0 : ModuleState :=
      { store := ToleranceStore.initial, ctxMgr := NumericalToleranceContextManager.initial }
     let c1 := algo_options st0 none (some (1 / 1000))
     let p1 := c1.2.enter c1.1.store
     let c2 := algo_options { store := p1.2, ctxMgr := p1.1 } (some (1 / 10000)) none
     let p2 := c2.2.enter c2.1.store
     p2.1.exit = Except.ok { RTOL := 1 / 100000, ATOL := 1 / 1000 }
       ∧ p2.1.exit ≠ Except.ok st0.store) := by
  refine ⟨rfl, ?_⟩
  intro h
  have h2 : ({ RTOL := 1 / 100000, ATOL := 1 / 1000 } : ToleranceStore) = ToleranceStore.initial :=
    Except.ok.inj h
  have h3 := congrArg ToleranceStore.ATOL h2
  norm_num [ToleranceStore.initial] at h3

/-- C2 (amended): for sequentially nested scopes entered via
`algo_options` within one thread, the inner scope's exit restores the
store to the immediately enclosing scope's values; but since every scope
shares the module-level singleton handle and each entry overwrites the
snapshot stored on it, the outer scope's exit performs exactly the same
restoration — the store ends at the values live immediately before the
inner entry, not at the values before the outermost entry. -/
theorem C2_nested_scopes_restore :
    ∀ (s0 : ToleranceStore) (m0 : NumericalToleranceContextManager)
      (r1 a1 r2 a2 : Option ℚ),
    (let st0 : ModuleState := { store := s0, ctxMgr := m0 }
     let c1 := algo_options st0 r1 a1
     let p1 := c1.2.enter c1.1.store
     let c2 := algo_options { store := p1.2, ctxMgr := p1.1 } r2 a2
     let p2 := c2.2.enter c2.1.store
     p2.1.exit = Except.ok (set_tolerance s0 r1 a1)
       ∧ p2.1.exit = Except.ok (set_tolerance s0 r1 a1)) :=
  fun _ _ _ _ _ _ => ⟨rfl, rfl⟩

/-- C3: a single (non-nested) scope prepared by `__call__` with any
overrides and entered on any store restores the store exactly on exit,
whatever the body does to the store and whether or not it raises; the
body's exception, if any, propagates unchanged. -/
theorem C3_scope_exit_restores :
    ∀ (m : NumericalToleranceContextManager) (rtol atol : Option ℚ)
      (s : ToleranceStore) (body : ToleranceStore → ToleranceStore × Option PyError),
    (runWith (m.call rtol atol) s body).2.1 = s
      ∧ (runWith (m.call rtol atol) s body).2.2 = (body (set_tolerance s rtol atol)).2 :=
  fun _ _ _ _ _ => ⟨rfl, rfl⟩

/-- C4: calling the permanent setter with shortcut "default" first resets
the store to `RTOL = 1E-5`, `ATOL = 1E-8` and applies the explicit keyword
overrides afterwards; and the keyword-application step leaves a tolerance
whose keyword is absent unchanged, in every call. -/
theorem C4_default_reset_then_overrides :
    ∀ (s : ToleranceStore) (rtol atol : Option ℚ),
    set_algo_options s (PosArg.str "default") rtol atol
        = Except.ok (set_tolerance { RTOL := 1 / 100000, ATOL := 1 / 100000000 } rtol atol)
      ∧ (set_tolerance s none atol).RTOL = s.RTOL
      ∧ (set_tolerance s rtol none).ATOL = s.ATOL
      ∧ set_algo_options s PosArg.none rtol atol = Except.ok (set_tolerance s rtol atol) := by
  intro s rtol atol
  refine ⟨rfl, ?_, ?_, rfl⟩
  · cases atol <;> rfl
  · cases rtol <;> rfl

/-- C5: the approximate-equality predicate returns true exactly when
`|a - b| ≤ ATOL + RTOL * |b|` for the store's values at call time; with
`a = 0.1`, `b = a + 1E-5` it is false under the default tolerances and
true after the permanent setter changes the absolute tolerance to
`1E-3`. -/
theorem C5_is_close_semantics :
    ∀ (s : ToleranceStore) (a b : ℚ),
    (is_close s a b = true ↔ |a - b| ≤ s.ATOL + s.RTOL * |b|)
      ∧ is_close ToleranceStore.initial (1 / 10) (1 / 10 + 1 / 100000) = false
      ∧ set_algo_options ToleranceStore.initial PosArg.none none (some (1 / 1000))
          = Except.ok { RTOL := 1 / 100000, ATOL := 1 / 1000 }
      ∧ is_close { RTOL := 1 / 100000, ATOL := 1 / 1000 } (1 / 10) (1 / 10 + 1 / 100000)
          = true := by
  intro s a b
  refine ⟨by simp [is_close], ?_, rfl, ?_⟩
  · simp only [is_close, ToleranceStore.initial, decide_eq_false_iff_not, not_le]
    rw [abs_sub_comm]
    norm_num [abs_of_nonneg]
  · simp only [is_close, decide_eq_true_eq]
    rw [abs_sub_comm]
    norm_num [abs_of_nonneg]

/-- C6: the Config Facade resolves `RTOL` and `ATOL` against the store
passed at the moment of access (so any store state is reflected
immediately), and any other attribute name fails with an `AttributeError`
naming the facade module and the unknown attribute. -/
theorem C6_facade_getattr :
    ∀ (s : ToleranceStore) (name : String),
    configGetattr s "RTOL" = Except.ok s.RTOL
      ∧ configGetattr s "ATOL" = Except.ok s.ATOL
      ∧ (name ≠ "RTOL" → name ≠ "ATOL" →
          configGetattr s name = Except.error (PyError.attributeError
            ("module 'dummypypi2._config' has no attribute '" ++ name ++ "'"))) := by
  intro s name
  refine ⟨rfl, rfl, fun h1 h2 => ?_⟩
  simp [configGetattr, h1, h2]

/-- C6 witness: concrete instances of the facade lookup, including the
error raised for the unknown attribute "FOO". -/
theorem C6_facade_getattr_witness :
    configGetattr ToleranceStore.initial "FOO" = Except.error (PyError.attributeError
      "module 'dummypypi2._config' has no attribute 'FOO'") :=
  (C6_facade_getattr ToleranceStore.initial "FOO").2.2 (by decide) (by decide)

/-- C7: `divide` fails with the division-by-zero `ValueError` exactly when
the denominator is zero and otherwise returns the quotient; in particular
`divide 4 2` returns exactly `2` and `divide 1 0` fails. -/
theorem C7_divide :
    ∀ (n d : ℚ),
    (d = 0 → divide n d = Except.error (PyError.valueError "division by zero"))
      ∧ (d ≠ 0 → divide n d = Except.ok (n / d))
      ∧ divide 4 2 = Except.ok 2
      ∧ divide 1 0 = Except.error (PyError.valueError "division by zero") := by
  intro n d
  refine ⟨fun h => ?_, fun h => ?_, by norm_num [divide], rfl⟩
  · simp [divide, h]
  · simp [divide, h]

/-- C7 witness: both hypotheses of the general statement discharged at
concrete inputs. -/
theorem C7_divide_witness :
    divide 6 3 = Except.ok (6 / 3)
      ∧ divide 0 0 = Except.error (PyError.valueError "division by zero") :=
  ⟨(C7_divide 6 3).2.1 (by norm_num), (C7_divide 0 0).1 rfl⟩

/-- C8 counterexample: with the plotting library absent from the
environment, `set_display_options` with the unrecognized palette name
"nosuch" fails with the missing-dependency `ImportWarning`, not with the
`KeyError` constraint violation: the `import matplotlib` inside the `try`
fails before the palette dict is ever indexed. -/
theorem C8_absent_library_not_keyerror :
    set_display_options false (some "nosuch")
        = Except.error (PyError.importWarning displayImportMsg)
      ∧ set_display_options false (some "nosuch")
        ≠ Except.error (PyError.keyError "nosuch") := by
  refine ⟨rfl, fun h => ?_⟩
  simp [set_display_options] at h

/-- C8 (amended): passing no palette name makes no change to the color
cycle and succeeds without error whether or not the plotting library is
available; with the library available, an unrecognized palette name is
rejected with a `KeyError`; with the library absent, any supplied palette
name fails with the missing-dependency `ImportWarning` instead. -/
theorem C8_display_options :
    ∀ (mplAvailable : Bool) (name : String),
    set_display_options mplAvailable none = Except.ok none
      ∧ (colorDictLookup name = none →
          set_display_options true (some name) = Except.error (PyError.keyError name))
      ∧ set_display_options false (some name)
          = Except.error (PyError.importWarning displayImportMsg) := by
  intro mpl name
  refine ⟨by cases mpl <;> rfl, fun h => ?_, rfl⟩
  simp [set_display_options, h]

/-- C8 witness: the unrecognized palette name "unknown" rejected with a
`KeyError` when the plotting library is available. -/
theorem C8_display_options_witness :
    set_display_options true (some "unknown") = Except.error (PyError.keyError "unknown") :=
  (C8_display_options true "unknown").2.1 (by decide)

theorem dot3_comm (u v : Vec3) : dot3 u v = dot3 v u := by
  simp only [dot3]; ring

theorem dot3_cross3_swap (a b look : Vec3) :
    dot3 (cross3 b a) look = -dot3 (cross3 a b) look := by
  simp only [dot3, cross3]; ring

theorem angleBetween_comm (a b : Vec3) : angleBetween b a = angleBetween a b := by
  unfold angleBetween
  rw [dot3_comm, mul_comm]

theorem norm3_e1 : norm3 ⟨1, 0, 0⟩ = 1 := by
  norm_num [norm3, dot3]

theorem norm3_e2 : norm3 ⟨0, 1, 0⟩ = 1 := by
  norm_num [norm3, dot3]

theorem norm3_neg_e1 : norm3 ⟨-1, 0, 0⟩ = 1 := by
  norm_num [norm3, dot3]

/-- C9 counterexample: for the antiparallel vectors `a = (1,0,0)`,
`b = (-1,0,0)` with look direction `(0,0,1)` the orientation test
`dot(cross(a, b), look)` is zero for both argument orders, so both orders
return the unsigned angle `+π`, and swapping the vectors does not negate
the result (`π ≠ -π`). -/
theorem C9_antiparallel_not_negated :
    ¬ (get_signed_angle ⟨-1, 0, 0⟩ ⟨1, 0, 0⟩ ⟨0, 0, 1⟩
        = -get_signed_angle ⟨1, 0, 0⟩ ⟨-1, 0, 0⟩ ⟨0, 0, 1⟩) := by
  have h1 : get_signed_angle ⟨1, 0, 0⟩ ⟨-1, 0, 0⟩ ⟨0, 0, 1⟩ = Real.pi := by
    unfold get_signed_angle
    rw [if_neg (by norm_num [dot3, cross3])]
    unfold angleBetween
    rw [norm3_e1, norm3_neg_e1]
    norm_num [dot3, Real.arccos_neg_one]
  have h2 : get_signed_angle ⟨-1, 0, 0⟩ ⟨1, 0, 0⟩ ⟨0, 0, 1⟩ = Real.pi := by
    unfold get_signed_angle
    rw [if_neg (by norm_num [dot3, cross3])]
    unfold angleBetween
    rw [norm3_neg_e1, norm3_e1]
    norm_num [dot3, Real.arccos_neg_one]
  rw [h1, h2]
  intro h
  have hz : Real.pi = 0 := by linarith
  exact Real.pi_ne_zero hz

/-- C9 (amended): swapping the two vectors negates the signed angle
whenever the orientation test `dot(cross(a, b), look)` is nonzero (in
particular whenever `a` and `b` are not parallel and `look` is not
coplanar with them); and for the orthogonal unit vectors `a = (1,0)`,
`b = (0,1)` embedded in 3-D with look direction `(0,0,1)`, the signed
angle from `a` to `b` is exactly `+π/2` and from `b` to `a` exactly
`-π/2`.  At antiparallel vectors the orientation test is zero and both
orders return `+π`. -/
theorem C9_signed_angle :
    ∀ (a b look : Vec3),
    (dot3 (cross3 a b) look ≠ 0 → get_signed_angle b a look = -get_signed_angle a b look)
      ∧ get_signed_angle ⟨1, 0, 0⟩ ⟨0, 1, 0⟩ ⟨0, 0, 1⟩ = Real.pi / 2
      ∧ get_signed_angle ⟨0, 1, 0⟩ ⟨1, 0, 0⟩ ⟨0, 0, 1⟩ = -(Real.pi / 2) := by
  intro a b look
  refine ⟨fun h => ?_, ?_, ?_⟩
  · unfold get_signed_angle
    rw [dot3_cross3_swap, angleBetween_comm]
    rcases lt_or_gt_of_ne h with hlt | hgt
    · rw [if_neg (by linarith), if_pos hlt]
      ring
    · rw [if_pos (by linarith), if_neg (by linarith)]
  · unfold get_signed_angle
    rw [if_neg (by norm_num [dot3, cross3])]
    unfold angleBetween
    rw [norm3_e1, norm3_e2]
    norm_num [dot3, Real.arccos_zero]
  · unfold get_signed_angle
    rw [if_pos (by norm_num [dot3, cross3])]
    unfold angleBetween
    rw [norm3_e2, norm3_e1]
    norm_num [dot3, Real.arccos_zero]

/-- C9 witness: the antisymmetry hypothesis discharged at the orthogonal
unit vectors, where the orientation test equals 1. -/
theorem C9_signed_angle_witness :
    get_signed_angle ⟨0, 1, 0⟩ ⟨1, 0, 0⟩ ⟨0, 0, 1⟩
      = -get_signed_angle ⟨1, 0, 0⟩ ⟨0, 1, 0⟩ ⟨0, 0, 1⟩ :=
  (C9_signed_angle ⟨1, 0, 0⟩ ⟨0, 1, 0⟩ ⟨0, 0, 1⟩).1 (by norm_num [dot3, cross3])

/-- C10: `algo_options` returns exactly the module's singleton context
manager, reconfigured in place (`__call__` overwrites both override
attributes unconditionally); after two successive calls the handle holds
the most recent call's overrides; and a second entry on the same handle
overwrites the snapshot saved by the first entry with the values live at
the second entry. -/
theorem C10_singleton_handle :
    ∀ (st : ModuleState) (r1 a1 r2 a2 : Option ℚ)
      (m : NumericalToleranceContextManager) (s1 s2 : ToleranceStore),
    (algo_options st r1 a1).2 = (algo_options st r1 a1).1.ctxMgr
      ∧ (algo_options (algo_options st r1 a1).1 r2 a2).2 = (st.ctxMgr.call r1 a1).call r2 a2
      ∧ ((algo_options (algo_options st r1 a1).1 r2 a2).2).rtol = r2
      ∧ ((algo_options (algo_options st r1 a1).1 r2 a2).2).atol = a2
      ∧ ((m.enter s1).1.enter s2).1.prev = some (s2.RTOL, s2.ATOL) :=
  fun _ _ _ _ _ _ _ _ => ⟨rfl, rfl, rfl, rfl, rfl⟩
